import Mathlib

/-!
Shallow embedding of the proximity-detection core of `app.py`
(`MapCreator.create_map_optimized` and its helper `get_thickness`).

Modelling conventions:
* Python floats (latitudes, longitudes, distances) are modelled as `ℚ`.
* `geopy.distance.geodesic(a, b).meters` is an external library call; it is
  modelled as an abstract parameter `dist : Coord → Coord → ℚ` threaded
  through the engine. Coordinates are `(lat, lon)` pairs, as in the Python
  tuples.
* Python dict lookups that can raise `KeyError`, list indexing that can raise
  `IndexError`, and the dict-key lookup `distances[type_]` are modelled with
  `Except Err`; the constructors of `Err` record which lookup failed.
* The `rtree` spatial index is modelled by its documented semantics: each
  residential node is inserted as the degenerate box
  `(lon, lat, lon, lat)` keyed by its position, and `intersection` on a query
  box returns every key whose stored box intersects the query box, boundary
  inclusive.
* `folium` rendering is dropped, except for the data it is handed: the marker
  colour chosen for a power object (`colors.get(type_, 'gray')`) and the
  location of each warning marker (a `Hit` below records the residential node
  position it was emitted for together with that location).
-/

set_option autoImplicit false

namespace DiplomApp

/-- A coordinate pair `(lat, lon)`, as stored in `self.nodes` values. -/
abbrev Coord : Type := ℚ × ℚ

/-- Abstract model of `geodesic(a, b).meters`. -/
abbrev Dist : Type := Coord → Coord → ℚ

/-- The node table `self.nodes : dict[id, (lat, lon)]`, as an association list. -/
abbrev NodeTable : Type := List (Nat × Coord)

/-- A raw residential element appended by `fetch_buildings`; an Overpass
element dict, whose `lat`/`lon` keys may in principle be absent (reading an
absent key raises `KeyError`). -/
structure ResNode where
  lat? : Option ℚ
  lon? : Option ℚ
deriving DecidableEq

/-- Which Python runtime error a failing lookup raised. -/
inductive Err where
  /-- `KeyError` from a dict access (`self.nodes[node_id]`, `res_node['lat']`,
  `res_node['lon']`). -/
  | missingKey : Err
  /-- `IndexError` from `self.residential_nodes[idx]`. -/
  | badIndex : Err
  /-- `KeyError` from `distances[type_]`: the spec's `UnknownInfrastructureKind`. -/
  | unknownKind : String → Err
deriving DecidableEq

/-- A warning marker emitted for a residential node: its index position and
the `(res_lat, res_lon)` location the marker is placed at. -/
structure Hit where
  pos : Nat
  lat : ℚ
  lon : ℚ
deriving DecidableEq

/-- The `colors` dict of `create_map_optimized`. -/
def colors : List (String × String) :=
  [("Substation", "blue"), ("Transformer", "green"),
   ("Converter", "orange"), ("Communication Tower", "red")]

/-- The `distances` dict of `create_map_optimized` (point thresholds, meters). -/
def distances : List (String × ℚ) :=
  [("Communication Tower", 45), ("Substation", 10),
   ("Transformer", 10), ("Converter", 10)]

/-- `colors.get(type_, 'gray')`. -/
def markerColor (kind : String) : String :=
  (List.lookup kind colors).getD "gray"

/-! ### `get_thickness` (lines 132-156)

`voltage.split(';')`, `int(...)` and `max(...)` are modelled character- and
list-exactly below. -/

/-- `voltage.split(';')` on the underlying character list: Python `str.split`
with an explicit separator keeps empty fields, and `''.split(';') == ['']`. -/
def splitSemiAux (acc : List Char) : List Char → List String
  | [] => [String.mk acc.reverse]
  | c :: cs =>
    if c = ';' then String.mk acc.reverse :: splitSemiAux [] cs
    else splitSemiAux (c :: acc) cs

/-- `voltage.split(';')`. -/
def splitSemi (s : String) : List String :=
  splitSemiAux [] s.data

/-- Numeric value of a digit list (most significant first). -/
def digitsVal (ds : List Char) : Nat :=
  ds.foldl (fun a c => a * 10 + (c.toNat - 48)) 0

/-- Strip leading and trailing whitespace, as Python `int` does before
parsing. -/
def stripWs (cs : List Char) : List Char :=
  (((cs.dropWhile Char.isWhitespace).reverse).dropWhile Char.isWhitespace).reverse

/-- Core of Python `int(s)`: an optional sign followed by a nonempty run of
digits (ASCII model; underscore digit grouping is not exercised by the
voltage data and is omitted). `none` models `ValueError`. -/
def pyIntCore : List Char → Option Int
  | [] => none
  | c :: cs =>
    if c = '-' then
      if !cs.isEmpty && cs.all Char.isDigit then some (-(digitsVal cs : Int)) else none
    else if c = '+' then
      if !cs.isEmpty && cs.all Char.isDigit then some ((digitsVal cs : Int)) else none
    else if (c :: cs).all Char.isDigit then some ((digitsVal (c :: cs) : Int))
    else none

/-- Python `int(s)`; `none` models `ValueError`. -/
def py_int (s : String) : Option Int :=
  pyIntCore (stripWs s.data)

/-- `list(map(int, voltage.split(';')))` with `ValueError` propagation:
`none` as soon as any token fails to parse. -/
def parseAll : List String → Option (List Int)
  | [] => some []
  | t :: ts =>
    match py_int t, parseAll ts with
    | some v, some vs => some (v :: vs)
    | _, _ => none

/-- The `elif` chain of `get_thickness` on `max_voltage` (lines 140-156). -/
def rangeThickness (m : Int) : ℚ :=
  if m < 1000 then 2
  else if m < 20000 then 10
  else if m = 35000 then 15
  else if m = 110000 then 20
  else if m = 150000 ∨ m = 220000 then 25
  else if m = 330000 ∨ m = 400000 ∨ m = 500000 then 30
  else if m = 750000 then 40
  else if m = 1150000 then 55
  else 20

/-- `get_thickness(voltage)` (lines 132-156). `if not voltage` is the empty
string here, since the caller defaults the field with
`way.get('tags', {}).get('voltage', '')`. `max(voltages)` is the left fold of
`max` over the (always nonempty) split. -/
def get_thickness (voltage : String) : ℚ :=
  if voltage = "" then 40
  else
    match parseAll (splitSemi voltage) with
    | none => 20
    | some [] => 20
    | some (v :: vs) => rangeThickness (vs.foldl max v)

/-! ### Spatial index (lines 101-105) and its query -/

/-- One rtree entry: `res_index.insert(pos, (res_lon, res_lat, res_lon, res_lat))`
inserts the degenerate box of a single `(lon, lat)` pair keyed by `pos`. -/
structure IndexEntry where
  pos : Nat
  lon : ℚ
  lat : ℚ
deriving DecidableEq

/-- A query bounding box `(minLon, minLat, maxLon, maxLat)`, the tuple passed
to `res_index.intersection`. -/
structure BBox where
  minLon : ℚ
  minLat : ℚ
  maxLon : ℚ
  maxLat : ℚ
deriving DecidableEq

/-- A degenerate `(lon, lat)` box intersects the query box, boundary
inclusive. -/
def inBox (b : BBox) (lon lat : ℚ) : Bool :=
  decide (b.minLon ≤ lon) && decide (lon ≤ b.maxLon) &&
  decide (b.minLat ≤ lat) && decide (lat ≤ b.maxLat)

/-- `res_index.intersection(box)`: every inserted key whose stored box
intersects the query box. -/
def intersection (entries : List IndexEntry) (b : BBox) : List Nat :=
  (entries.filter (fun e => inBox b e.lon e.lat)).map (fun e => e.pos)

/-- `res_node['lat']` / `res_node['lon']`: `KeyError` when absent. -/
def readCoord : Option ℚ → Except Err ℚ
  | some q => .ok q
  | none => .error .missingKey

/-- Index construction loop (lines 102-105), from position `pos` on: for each
residential node read `lat` and `lon` (raising `KeyError` if absent) and
insert the degenerate box keyed by the enumeration position. -/
def buildIndexAux (pos : Nat) : List ResNode → Except Err (List IndexEntry)
  | [] => .ok []
  | rn :: rest =>
    match readCoord rn.lat? with
    | .error e => .error e
    | .ok la =>
      match readCoord rn.lon? with
      | .error e => .error e
      | .ok lo =>
        match buildIndexAux (pos + 1) rest with
        | .error e => .error e
        | .ok entries => .ok (⟨pos, lo, la⟩ :: entries)

/-- `res_index` after the `enumerate(self.residential_nodes)` loop. -/
def buildIndex (residential_nodes : List ResNode) : Except Err (List IndexEntry) :=
  buildIndexAux 0 residential_nodes

/-- `self.residential_nodes[idx]` followed by `res_node['lat'], res_node['lon']`
(lines 121-122 and 170-171). -/
def getResCoords (residential_nodes : List ResNode) (idx : Nat) : Except Err Coord :=
  match residential_nodes.get? idx with
  | none => .error .badIndex
  | some rn =>
    match readCoord rn.lat? with
    | .error e => .error e
    | .ok la =>
      match readCoord rn.lon? with
      | .error e => .error e
      | .ok lo => .ok (la, lo)

/-! ### Point pass (lines 107-129) -/

/-- Padded query box `(lon - 0.01, lat - 0.01, lon + 0.01, lat + 0.01)`
(line 119). -/
def pointBBox (lat lon : ℚ) : BBox :=
  ⟨lon - 1/100, lat - 1/100, lon + 1/100, lat + 1/100⟩

/-- The candidate loop of the point pass (lines 120-129): for each candidate
position look up the residential node, compute its geodesic distance to the
power object, and emit a warning marker when
`distance <= distances[type_]`; `distances[type_]` raises `KeyError` for an
unrecognized kind. -/
def scanPointCandidates (dist : Dist) (residential_nodes : List ResNode)
    (lat lon : ℚ) (kind : String) : List Nat → Except Err (List Hit)
  | [] => .ok []
  | idx :: rest =>
    match getResCoords residential_nodes idx with
    | .error e => .error e
    | .ok (rla, rlo) =>
      let d := dist (lat, lon) (rla, rlo)
      match List.lookup kind distances with
      | none => .error (.unknownKind kind)
      | some thr =>
        match scanPointCandidates dist residential_nodes lat lon kind rest with
        | .error e => .error e
        | .ok hits => if d ≤ thr then .ok (⟨idx, rla, rlo⟩ :: hits) else .ok hits

/-- One iteration of the power-object loop (lines 107-129): look up the
object's coordinates in the node table (`KeyError` if absent), draw its circle
marker with `colors.get(type_, 'gray')`, query the index with the padded box,
and scan the candidates. Returns the marker colour and the emitted hits. -/
def processPowerObject (dist : Dist) (nodes : NodeTable)
    (residential_nodes : List ResNode) (entries : List IndexEntry)
    (obj : Nat × String) : Except Err (String × List Hit) :=
  match List.lookup obj.1 nodes with
  | none => .error .missingKey
  | some (lat, lon) =>
    match scanPointCandidates dist residential_nodes lat lon obj.2
        (intersection entries (pointBBox lat lon)) with
    | .error e => .error e
    | .ok hits => .ok (markerColor obj.2, hits)

/-! ### Line pass (lines 158-188) -/

/-- A way record: its raw node-id references and the optional
`tags['voltage']` string (`way.get('tags', {}).get('voltage', '')` defaults it
to `''`). -/
structure Way where
  nodes : List Nat
  voltage : Option String

/-- `[self.nodes[node_id] for node_id in way['nodes'] if node_id in self.nodes]`
(line 159). -/
def resolvePoints (nodes : NodeTable) (ids : List Nat) : List Coord :=
  ids.filterMap (fun i => List.lookup i nodes)

/-- Consecutive vertex pairs `(points[i], points[i+1])` for
`i in range(len(points) - 1)` (lines 162-164). -/
def segments (ps : List Coord) : List (Coord × Coord) :=
  ps.zip ps.tail

/-- Padded query box of a segment (lines 165-168): coordinates are `(lat, lon)`
pairs, so index `1` is the longitude. -/
def segBBox (sp ep : Coord) : BBox :=
  ⟨min sp.2 ep.2 - 1/100, min sp.1 ep.1 - 1/100,
   max sp.2 ep.2 + 1/100, max sp.1 ep.1 + 1/100⟩

/-- `thickness * distances.get('power_line', 1)` (line 178): the segment
threshold derived from a thickness. -/
def lineThreshold (thickness : ℚ) : ℚ :=
  thickness * (List.lookup "power_line" distances).getD 1

/-- The candidate loop of the line pass (lines 169-183): for each candidate
position, `distance_to_line_segment` is the minimum of the geodesic distances
to the two segment endpoints, and a warning marker is emitted when it is
`<= get_thickness(voltage) * distances.get('power_line', 1)`. -/
def scanSegCandidates (dist : Dist) (residential_nodes : List ResNode)
    (sp ep : Coord) (voltage : String) : List Nat → Except Err (List Hit)
  | [] => .ok []
  | idx :: rest =>
    match getResCoords residential_nodes idx with
    | .error e => .error e
    | .ok (rla, rlo) =>
      let d := min (dist sp (rla, rlo)) (dist ep (rla, rlo))
      let thickness := get_thickness voltage
      match scanSegCandidates dist residential_nodes sp ep voltage rest with
      | .error e => .error e
      | .ok hits =>
        if d ≤ lineThreshold thickness then .ok (⟨idx, rla, rlo⟩ :: hits)
        else .ok hits

/-- One segment (lines 162-183): query the index with the segment's padded box
and scan the candidates. -/
def scanSegment (dist : Dist) (residential_nodes : List ResNode)
    (entries : List IndexEntry) (voltage : String) (sp ep : Coord) :
    Except Err (List Hit) :=
  scanSegCandidates dist residential_nodes sp ep voltage
    (intersection entries (segBBox sp ep))

/-- The segment loop of one way, collecting hits in iteration order. -/
def scanSegments (dist : Dist) (residential_nodes : List ResNode)
    (entries : List IndexEntry) (voltage : String) :
    List (Coord × Coord) → Except Err (List Hit)
  | [] => .ok []
  | (sp, ep) :: rest =>
    match scanSegment dist residential_nodes entries voltage sp ep with
    | .error e => .error e
    | .ok hits =>
      match scanSegments dist residential_nodes entries voltage rest with
      | .error e => .error e
      | .ok more => .ok (hits ++ more)

/-- One iteration of the way loop (lines 158-188): resolve the polyline's
vertices against the node table, then scan every consecutive pair. -/
def processWay (dist : Dist) (nodes : NodeTable)
    (residential_nodes : List ResNode) (entries : List IndexEntry) (w : Way) :
    Except Err (List Hit) :=
  scanSegments dist residential_nodes entries (w.voltage.getD "")
    (segments (resolvePoints nodes w.nodes))

/-- The referenced node ids that are present in the node table, in their
original order (the guard of the comprehension on line 159). -/
def presentIds (nodes : NodeTable) (ids : List Nat) : List Nat :=
  ids.filter (fun i => (List.lookup i nodes).isSome)

/-- `mapM` over `Except Err`, stopping at the first raised error, as the
Python `for` loops do. -/
def mapExcept {α β : Type} (f : α → Except Err β) : List α → Except Err (List β)
  | [] => .ok []
  | a :: as =>
    match f a with
    | .error e => .error e
    | .ok b =>
      match mapExcept f as with
      | .error e => .error e
      | .ok bs => .ok (b :: bs)

/-- `create_map_optimized` (lines 88-190), with `folium` rendering dropped:
if the node table is empty the function returns the empty world map at once;
otherwise it builds the index, runs the point pass over every power object and
the line pass over every way, and returns, per power object, its marker colour
and hits, and per way, its hits. -/
def create_map_optimized (dist : Dist) (nodes : NodeTable)
    (power_objects : List (Nat × String)) (ways : List Way)
    (residential_nodes : List ResNode) :
    Except Err (List (String × List Hit) × List (List Hit)) :=
  if nodes = [] then .ok ([], [])
  else
    match buildIndex residential_nodes with
    | .error e => .error e
    | .ok entries =>
      match mapExcept (processPowerObject dist nodes residential_nodes entries)
          power_objects with
      | .error e => .error e
      | .ok ptResults =>
        match mapExcept (processWay dist nodes residential_nodes entries) ways with
        | .error e => .error e
        | .ok lnResults => .ok (ptResults, lnResults)

/-! ## Theorems -/

/-- C2: for every line and every segment, the threshold compared against the
computed distance is exactly the thickness derived from the voltage field:
the `'power_line'` key is absent from the `distances` dict, so
`distances.get('power_line', 1)` is `1` and the multiplier is trivial. -/
theorem c2_line_threshold_equals_thickness :
    List.lookup "power_line" distances = none ∧
    (∀ voltage : String, lineThreshold (get_thickness voltage) = get_thickness voltage) ∧
    (∀ t : ℚ, lineThreshold t = t) := by
  have hnone : List.lookup "power_line" distances = none := by decide
  have hall : ∀ t : ℚ, lineThreshold t = t := by
    intro t
    unfold lineThreshold
    rw [hnone]
    exact mul_one t
  exact ⟨hnone, fun v => hall (get_thickness v), hall⟩

/-- C3: `get_thickness` returns 40 on the empty field; on a semicolon-separated
list of integers it maps the maximum through the documented range table
(<1000→2, <20000→10, 35000→15, 110000→20, 150000/220000→25,
330000/400000/500000→30, 750000→40, 1150000→55, anything else→20); and it
returns 20 on unparsable content. The four spec examples evaluate as stated. -/
theorem c3_thickness_for_voltage :
    get_thickness "" = 40 ∧
    get_thickness "35000" = 15 ∧
    get_thickness "110000;50000" = 20 ∧
    get_thickness "abc" = 20 ∧
    (∀ (s : String) (v : Int) (vs : List Int), s ≠ "" →
      parseAll (splitSemi s) = some (v :: vs) →
      get_thickness s = rangeThickness (vs.foldl max v)) ∧
    (∀ s : String, s ≠ "" → parseAll (splitSemi s) = none → get_thickness s = 20) ∧
    (∀ m : Int, m < 1000 → rangeThickness m = 2) ∧
    (∀ m : Int, 1000 ≤ m → m < 20000 → rangeThickness m = 10) ∧
    rangeThickness 35000 = 15 ∧
    rangeThickness 110000 = 20 ∧
    rangeThickness 150000 = 25 ∧ rangeThickness 220000 = 25 ∧
    rangeThickness 330000 = 30 ∧ rangeThickness 400000 = 30 ∧ rangeThickness 500000 = 30 ∧
    rangeThickness 750000 = 40 ∧
    rangeThickness 1150000 = 55 ∧
    (∀ m : Int, 20000 ≤ m → m ≠ 35000 → m ≠ 110000 → m ≠ 150000 → m ≠ 220000 →
      m ≠ 330000 → m ≠ 400000 → m ≠ 500000 → m ≠ 750000 → m ≠ 1150000 →
      rangeThickness m = 20) := by
  refine ⟨by with_unfolding_all decide, by with_unfolding_all decide,
    by with_unfolding_all decide, by with_unfolding_all decide,
    ?_, ?_, ?_, ?_,
    by with_unfolding_all decide, by with_unfolding_all decide,
    by with_unfolding_all decide, by with_unfolding_all decide,
    by with_unfolding_all decide, by with_unfolding_all decide,
    by with_unfolding_all decide, by with_unfolding_all decide,
    by with_unfolding_all decide, ?_⟩
  · intro s v vs hs hp
    unfold get_thickness
    rw [if_neg hs, hp]
  · intro s hs hp
    unfold get_thickness
    rw [if_neg hs, hp]
  · intro m hm
    unfold rangeThickness
    rw [if_pos hm]
  · intro m h1 h2
    unfold rangeThickness
    rw [if_neg (by omega), if_pos h2]
  · intro m h h35 h110 h150 h220 h330 h400 h500 h750 h1150
    unfold rangeThickness
    rw [if_neg (by omega), if_neg (by omega), if_neg h35, if_neg h110,
      if_neg (by omega), if_neg (by omega), if_neg h750, if_neg h1150]

/-- C3 witness: the general clauses of `c3_thickness_for_voltage` instantiated
at `"750000"` and `"x;1"`. -/
theorem c3_thickness_for_voltage_witness :
    get_thickness "750000" = rangeThickness (List.foldl max 750000 []) ∧
    get_thickness "x;1" = 20 :=
  ⟨c3_thickness_for_voltage.2.2.2.2.1 "750000" 750000 [] (by decide) (by decide),
   c3_thickness_for_voltage.2.2.2.2.2.1 "x;1" (by decide) (by decide)⟩

/-- Any unparsable token poisons the whole `list(map(int, ...))` call. -/
theorem parseAll_eq_none_of_mem {l : List String} {t : String}
    (ht : t ∈ l) (hn : py_int t = none) : parseAll l = none := by
  induction l with
  | nil => cases ht
  | cons a as ih =>
    rcases List.mem_cons.mp ht with rfl | hmem
    · unfold parseAll
      rw [hn]
    · unfold parseAll
      cases hp : py_int a with
      | none => rfl
      | some v => rw [ih hmem]

/-- C10 counterexample: the empty string splits into the single token `""`,
which does not parse as an integer, yet `get_thickness` returns 40 (the
empty-field default fires before parsing), not 20. -/
theorem c10_counterexample :
    "" ∈ splitSemi "" ∧ py_int "" = none ∧
    get_thickness "" = 40 ∧ get_thickness "" ≠ 20 := by
  refine ⟨by decide, by decide, by with_unfolding_all decide, by with_unfolding_all decide⟩

/-- C10 (amended): for every nonempty voltage field string containing at least
one semicolon-separated token that does not parse as an integer,
`get_thickness` returns 20 regardless of the tokens that do parse. -/
theorem c10_unparsable_token_gives_20 :
    ∀ (s t : String), s ≠ "" → t ∈ splitSemi s → py_int t = none →
      get_thickness s = 20 := by
  intro s t hs ht hn
  unfold get_thickness
  rw [if_neg hs, parseAll_eq_none_of_mem ht hn]

/-- C10 witness: `"750000;abc"` contains the unparsable token `"abc"`, and its
thickness is 20, not the 40 that 750000 alone would give. -/
theorem c10_unparsable_token_gives_20_witness :
    get_thickness "750000;abc" = 20 :=
  c10_unparsable_token_gives_20 "750000;abc" "abc" (by decide) (by decide) (by decide)

/-- `colors` and `distances` have the same four keys, so a kind absent from
`distances` also falls back to the `'gray'` marker colour. -/
theorem markerColor_eq_gray {kind : String}
    (h : List.lookup kind distances = none) : markerColor kind = "gray" := by
  unfold markerColor colors
  unfold distances at h
  cases h1 : (kind == "Communication Tower") <;>
    cases h2 : (kind == "Substation") <;>
      cases h3 : (kind == "Transformer") <;>
        cases h4 : (kind == "Converter") <;>
          simp [List.lookup, h1, h2, h3, h4] at h ⊢

/-- C6: looking up the point threshold of an unrecognized kind raises
(`distances[type_]` is a `KeyError`, modelled `Err.unknownKind`) instead of
falling back to a default, and the error propagates out of the record's
processing as soon as a candidate forces the lookup. -/
theorem c6_unknown_kind_error :
    ∀ (dist : Dist) (nodes : NodeTable) (residential_nodes : List ResNode)
      (entries : List IndexEntry) (nid : Nat) (kind : String) (lat lon : ℚ)
      (idx : Nat) (rest : List Nat) (rla rlo : ℚ),
      List.lookup kind distances = none →
      List.lookup nid nodes = some (lat, lon) →
      intersection entries (pointBBox lat lon) = idx :: rest →
      getResCoords residential_nodes idx = .ok (rla, rlo) →
      processPowerObject dist nodes residential_nodes entries (nid, kind) =
        .error (.unknownKind kind) := by
  intro dist nodes rns entries nid kind lat lon idx rest rla rlo hkind hnode hq hres
  simp only [processPowerObject, hnode, hq, scanPointCandidates, hres, hkind]

/-- C6 witness: a `"Weird"` power object with one in-box residential candidate
makes the run fail with `Err.unknownKind "Weird"`. -/
theorem c6_unknown_kind_error_witness :
    processPowerObject (fun _ _ => (0 : ℚ)) [(0, ((0 : ℚ), (0 : ℚ)))]
      [⟨some 0, some 0⟩] [⟨0, 0, 0⟩] (0, "Weird") = .error (.unknownKind "Weird") :=
  c6_unknown_kind_error (fun _ _ => 0) [(0, (0, 0))] [⟨some 0, some 0⟩] [⟨0, 0, 0⟩]
    0 "Weird" 0 0 0 [] 0 0 (by decide) (by decide)
    (by with_unfolding_all decide) (by with_unfolding_all rfl)

/-- C9: for an unrecognized kind, the threshold lookup sits inside the
candidate loop, so with no candidate in the padded box the object is processed
to completion: the result is `ok` with the fallback `'gray'` marker colour and
no hits, and no error is raised. -/
theorem c9_unknown_kind_without_candidates_ok :
    ∀ (dist : Dist) (nodes : NodeTable) (residential_nodes : List ResNode)
      (entries : List IndexEntry) (nid : Nat) (kind : String) (lat lon : ℚ),
      List.lookup kind distances = none →
      List.lookup nid nodes = some (lat, lon) →
      intersection entries (pointBBox lat lon) = [] →
      processPowerObject dist nodes residential_nodes entries (nid, kind) =
        .ok (markerColor kind, []) ∧ markerColor kind = "gray" := by
  intro dist nodes rns entries nid kind lat lon hkind hnode hq
  constructor
  · simp only [processPowerObject, hnode, hq, scanPointCandidates]
  · exact markerColor_eq_gray hkind

/-- C9 witness: the `"Weird"` object with an empty index is drawn gray and
raises nothing. -/
theorem c9_unknown_kind_without_candidates_ok_witness :
    processPowerObject (fun _ _ => (0 : ℚ)) [(0, ((0 : ℚ), (0 : ℚ)))] [] []
      (0, "Weird") = .ok (markerColor "Weird", []) ∧ markerColor "Weird" = "gray" :=
  c9_unknown_kind_without_candidates_ok (fun _ _ => 0) [(0, (0, 0))] [] []
    0 "Weird" 0 0 (by decide) (by decide) rfl

/-- A residential node with a missing coordinate makes the index-construction
loop raise `KeyError`, whatever its position. -/
theorem buildIndexAux_error_of_bad :
    ∀ (pos : Nat) (l : List ResNode),
      (∃ rn ∈ l, rn.lat? = none ∨ rn.lon? = none) →
      buildIndexAux pos l = .error .missingKey := by
  intro pos l
  induction l generalizing pos with
  | nil =>
    rintro ⟨rn, hmem, -⟩
    cases hmem
  | cons a as ih =>
    rintro ⟨rn, hmem, hbad⟩
    rcases List.mem_cons.mp hmem with rfl | hmem'
    · rcases hbad with hla | hlo
      · simp [buildIndexAux, readCoord, hla]
      · cases hla : rn.lat? with
        | none => simp [buildIndexAux, readCoord, hla]
        | some la => simp [buildIndexAux, readCoord, hla, hlo]
    · cases hla : a.lat? with
      | none => simp [buildIndexAux, readCoord, hla]
      | some la =>
        cases hlo : a.lon? with
        | none => simp [buildIndexAux, readCoord, hla, hlo]
        | some lo =>
          simp [buildIndexAux, readCoord, hla, hlo, ih (pos + 1) ⟨rn, hmem', hbad⟩]

/-- C8 counterexample: a residential node whose `lat` key is absent is not
dropped before indexing — the whole run raises `KeyError` instead of
continuing. -/
theorem c8_counterexample :
    create_map_optimized (fun _ _ => (0 : ℚ)) [(0, ((0 : ℚ), (0 : ℚ)))] [] []
      [⟨none, some 0⟩] = .error .missingKey := by
  with_unfolding_all rfl

/-- C8 (amended): a ResidentialPoint with a missing coordinate is not dropped:
building the spatial index raises `KeyError` and the run aborts; likewise an
InfrastructurePointObject whose id is absent from the node table raises
`KeyError` when processed. -/
theorem c8_missing_coordinates_raise :
    (∀ residential_nodes : List ResNode,
      (∃ rn ∈ residential_nodes, rn.lat? = none ∨ rn.lon? = none) →
      buildIndex residential_nodes = .error .missingKey) ∧
    (∀ (dist : Dist) (nodes : NodeTable) (residential_nodes : List ResNode)
      (entries : List IndexEntry) (nid : Nat) (kind : String),
      List.lookup nid nodes = none →
      processPowerObject dist nodes residential_nodes entries (nid, kind) =
        .error .missingKey) := by
  constructor
  · intro rns h
    exact buildIndexAux_error_of_bad 0 rns h
  · intro dist nodes rns entries nid kind h
    simp only [processPowerObject, h]

/-- C8 witness: the coordinate-less node of `c8_counterexample` makes
`buildIndex` raise, and a power object with an unresolvable id raises too. -/
theorem c8_missing_coordinates_raise_witness :
    buildIndex [⟨none, some 0⟩] = .error .missingKey ∧
    processPowerObject (fun _ _ => (0 : ℚ)) [] [] [] (0, "Substation") =
      .error .missingKey :=
  ⟨c8_missing_coordinates_raise.1 [⟨none, some 0⟩]
      ⟨⟨none, some 0⟩, by simp, Or.inl rfl⟩,
   c8_missing_coordinates_raise.2 (fun _ _ => 0) [] [] [] 0 "Substation" rfl⟩

/-- The resolved vertex list is exactly the lookups of the referenced ids that
are present in the node table, in order. -/
theorem resolvePoints_eq (nodes : NodeTable) (ids : List Nat) :
    resolvePoints nodes ids =
      (presentIds nodes ids).filterMap (fun i => List.lookup i nodes) := by
  induction ids with
  | nil => rfl
  | cons a as ih =>
    simp only [resolvePoints, presentIds, List.filter_cons, List.filterMap_cons] at ih ⊢
    cases hf : List.lookup a nodes with
    | none => simpa [hf] using ih
    | some c => simpa [hf] using ih

/-- C7: vertices resolve to the subsequence of referenced ids present in the
node table, in original order (absent ids skipped, never reordered); segments
pair consecutive resolved vertices; a way with fewer than two resolved
vertices contributes no segment and no hit, and raises nothing. -/
theorem c7_vertex_resolution_and_degenerate_ways :
    (∀ (nodes : NodeTable) (ids : List Nat),
      (presentIds nodes ids).Sublist ids ∧
      resolvePoints nodes ids =
        (presentIds nodes ids).filterMap (fun i => List.lookup i nodes) ∧
      ∀ i ∈ presentIds nodes ids, (List.lookup i nodes).isSome = true) ∧
    (∀ ps : List Coord, ps.length < 2 → segments ps = []) ∧
    (∀ (dist : Dist) (nodes : NodeTable) (residential_nodes : List ResNode)
      (entries : List IndexEntry) (w : Way),
      (resolvePoints nodes w.nodes).length < 2 →
      processWay dist nodes residential_nodes entries w = .ok []) := by
  have hseg : ∀ ps : List Coord, ps.length < 2 → segments ps = [] := by
    intro ps h
    match ps with
    | [] => rfl
    | [x] => rfl
    | x :: y :: rest => simp at h; omega
  refine ⟨?_, hseg, ?_⟩
  · intro nodes ids
    refine ⟨List.filter_sublist ids, resolvePoints_eq nodes ids, ?_⟩
    intro i hi
    exact (List.mem_filter.mp hi).2
  · intro dist nodes rns entries w h
    unfold processWay
    rw [hseg _ h]
    rfl

/-- C7 witness: a one-vertex polyline has no segments, and a way whose only
node reference is absent resolves to nothing and yields `ok []`. -/
theorem c7_vertex_resolution_and_degenerate_ways_witness :
    segments [((0 : ℚ), (0 : ℚ))] = [] ∧
    processWay (fun _ _ => (0 : ℚ)) [] [] [] ⟨[5], none⟩ = .ok [] :=
  ⟨c7_vertex_resolution_and_degenerate_ways.2.1 [(0, 0)] (by decide),
   c7_vertex_resolution_and_degenerate_ways.2.2 (fun _ _ => 0) [] [] [] ⟨[5], none⟩
     (by decide)⟩

/-- Every residential node with both coordinates present at offset `i` of the
remaining list is indexed at key `pos + i` when the construction loop
succeeds. -/
theorem buildIndexAux_mem :
    ∀ (l : List ResNode) (pos : Nat) (entries : List IndexEntry),
      buildIndexAux pos l = .ok entries →
      ∀ (i : Nat) (rn : ResNode) (la lo : ℚ),
        l.get? i = some rn → rn.lat? = some la → rn.lon? = some lo →
        (⟨pos + i, lo, la⟩ : IndexEntry) ∈ entries := by
  intro l
  induction l with
  | nil =>
    intro pos entries h i rn la lo hget _ _
    simp at hget
  | cons a as ih =>
    intro pos entries h i rn la lo hget hla hlo
    simp only [buildIndexAux] at h
    split at h
    · exact Except.noConfusion h
    · rename_i la0 heq1
      split at h
      · exact Except.noConfusion h
      · rename_i lo0 heq2
        split at h
        · exact Except.noConfusion h
        · rename_i entries' hrec
          injection h with h'
          subst h'
          cases i with
          | zero =>
            have ha : a = rn := by
              have : some a = some rn := hget
              injection this
            subst ha
            rw [hla] at heq1
            rw [hlo] at heq2
            simp only [readCoord] at heq1 heq2
            injection heq1 with h1
            injection heq2 with h2
            subst h1
            subst h2
            simp
          | succ i' =>
            have hmem := ih (pos + 1) entries' hrec i' rn la lo (by simpa using hget) hla hlo
            have harith : pos + (i' + 1) = pos + 1 + i' := by omega
            rw [harith]
            exact List.mem_cons_of_mem _ hmem

/-- C5: the spatial index has no false negatives: when the index build
succeeds, every indexed residential point whose `(lon, lat)` lies within a
query box (boundary inclusive) has its position in the query result. -/
theorem c5_index_no_false_negatives :
    ∀ (residential_nodes : List ResNode) (entries : List IndexEntry) (b : BBox)
      (i : Nat) (rn : ResNode) (la lo : ℚ),
      buildIndex residential_nodes = .ok entries →
      residential_nodes.get? i = some rn →
      rn.lat? = some la → rn.lon? = some lo →
      inBox b lo la = true →
      i ∈ intersection entries b := by
  intro rns entries b i rn la lo hbuild hget hla hlo hbox
  have hmem : (⟨0 + i, lo, la⟩ : IndexEntry) ∈ entries :=
    buildIndexAux_mem rns 0 entries hbuild i rn la lo hget hla hlo
  rw [Nat.zero_add] at hmem
  unfold intersection
  exact List.mem_map.mpr ⟨⟨i, lo, la⟩, List.mem_filter.mpr ⟨hmem, hbox⟩, rfl⟩

/-- C5 witness: the point `(lat 1, lon 2)` indexed at position 0 is returned
by a query whose box has it exactly on the boundary. -/
theorem c5_index_no_false_negatives_witness :
    0 ∈ intersection [⟨0, 2, 1⟩] ⟨2, 1, 2, 1⟩ :=
  c5_index_no_false_negatives [⟨some 1, some 2⟩] [⟨0, 2, 1⟩] ⟨2, 1, 2, 1⟩ 0
    ⟨some 1, some 2⟩ 1 2 (by with_unfolding_all rfl) rfl rfl rfl
    (by with_unfolding_all decide)

/-- Membership in the point-pass hit list: when the candidate scan succeeds,
a resolvable candidate is a hit exactly when it is among the scanned
candidates and its distance to the object is at most the kind's threshold. -/
theorem scanPointCandidates_mem
    (dist : Dist) (rns : List ResNode) (lat lon : ℚ) (kind : String) (thr : ℚ)
    (hk : List.lookup kind distances = some thr) :
    ∀ (cands : List Nat) (hits : List Hit),
      scanPointCandidates dist rns lat lon kind cands = .ok hits →
      ∀ (idx : Nat) (rla rlo : ℚ), getResCoords rns idx = .ok (rla, rlo) →
        ((⟨idx, rla, rlo⟩ : Hit) ∈ hits ↔
          idx ∈ cands ∧ dist (lat, lon) (rla, rlo) ≤ thr) := by
  intro cands
  induction cands with
  | nil =>
    intro hits h idx rla rlo hres
    simp only [scanPointCandidates] at h
    injection h with h'
    subst h'
    simp
  | cons c rest ih =>
    intro hits h idx rla rlo hres
    simp only [scanPointCandidates] at h
    split at h
    · exact Except.noConfusion h
    · rename_i cla clo heq
      split at h
      · exact Except.noConfusion h
      · rename_i thr0 heq2
        rw [hk] at heq2
        injection heq2 with heq2'
        subst heq2'
        split at h
        · exact Except.noConfusion h
        · rename_i hits' hrec
          split at h
          · rename_i hd
            injection h with h'
            subst h'
            constructor
            · intro hmem
              rcases List.mem_cons.mp hmem with hhead | htail
              · injection hhead with h1 h2 h3
                subst h1
                subst h2
                subst h3
                exact ⟨List.mem_cons_self _ _, hd⟩
              · have hrest := (ih hits' hrec idx rla rlo hres).mp htail
                exact ⟨List.mem_cons_of_mem c hrest.1, hrest.2⟩
            · rintro ⟨hmem, hdist⟩
              rcases List.mem_cons.mp hmem with rfl | htail
              · rw [hres] at heq
                injection heq with hp
                injection hp with h1 h2
                subst h1
                subst h2
                exact List.mem_cons_self _ _
              · exact List.mem_cons_of_mem _
                  ((ih hits' hrec idx rla rlo hres).mpr ⟨htail, hdist⟩)
          · rename_i hd
            injection h with h'
            subst h'
            constructor
            · intro hmem
              have hrest := (ih hits' hrec idx rla rlo hres).mp hmem
              exact ⟨List.mem_cons_of_mem c hrest.1, hrest.2⟩
            · rintro ⟨hmem, hdist⟩
              rcases List.mem_cons.mp hmem with rfl | htail
              · rw [hres] at heq
                injection heq with hp
                injection hp with h1 h2
                subst h1
                subst h2
                exact absurd hdist hd
              · exact (ih hits' hrec idx rla rlo hres).mpr ⟨htail, hdist⟩

/-- C4: in the point pass, for a recognized kind and any candidate returned by
the padded bounding-box query, a hit is emitted exactly when the geodesic
distance is at most the kind's threshold (inclusive); the threshold table is
Communication Tower → 45, Substation → 10, Transformer → 10, Converter → 10. -/
theorem c4_point_pass_threshold_table :
    (∀ (dist : Dist) (rns : List ResNode) (entries : List IndexEntry)
      (lat lon : ℚ) (kind : String) (thr : ℚ) (hits : List Hit),
      List.lookup kind distances = some thr →
      scanPointCandidates dist rns lat lon kind
        (intersection entries (pointBBox lat lon)) = .ok hits →
      ∀ (idx : Nat) (rla rlo : ℚ), getResCoords rns idx = .ok (rla, rlo) →
        ((⟨idx, rla, rlo⟩ : Hit) ∈ hits ↔
          idx ∈ intersection entries (pointBBox lat lon) ∧
          dist (lat, lon) (rla, rlo) ≤ thr)) ∧
    List.lookup "Communication Tower" distances = some 45 ∧
    List.lookup "Substation" distances = some 10 ∧
    List.lookup "Transformer" distances = some 10 ∧
    List.lookup "Converter" distances = some 10 := by
  refine ⟨?_, by decide, by decide, by decide, by decide⟩
  intro dist rns entries lat lon kind thr hits hk h idx rla rlo hres
  exact scanPointCandidates_mem dist rns lat lon kind thr hk
    (intersection entries (pointBBox lat lon)) hits h idx rla rlo hres

/-- C4 witness: a Substation at `(0, 0)` with one residential node at the same
spot under a zero distance function: the node is a hit, and conversely. -/
theorem c4_point_pass_threshold_table_witness :
    (⟨0, 0, 0⟩ : Hit) ∈ [(⟨0, 0, 0⟩ : Hit)] ↔
      0 ∈ intersection [⟨0, 0, 0⟩] (pointBBox 0 0) ∧ (0 : ℚ) ≤ 10 :=
  c4_point_pass_threshold_table.1 (fun _ _ => 0) [⟨some 0, some 0⟩] [⟨0, 0, 0⟩]
    0 0 "Substation" 10 [⟨0, 0, 0⟩] (by decide) (by with_unfolding_all rfl)
    0 0 0 (by with_unfolding_all rfl)

/-- Membership in the line-pass hit list: when the candidate scan of one
segment succeeds, a resolvable candidate is a hit exactly when it is among the
scanned candidates and the minimum of its distances to the two segment
endpoints is at most the voltage-derived threshold. -/
theorem scanSegCandidates_mem
    (dist : Dist) (rns : List ResNode) (sp ep : Coord) (voltage : String) :
    ∀ (cands : List Nat) (hits : List Hit),
      scanSegCandidates dist rns sp ep voltage cands = .ok hits →
      ∀ (idx : Nat) (rla rlo : ℚ), getResCoords rns idx = .ok (rla, rlo) →
        ((⟨idx, rla, rlo⟩ : Hit) ∈ hits ↔
          idx ∈ cands ∧
          min (dist sp (rla, rlo)) (dist ep (rla, rlo)) ≤
            lineThreshold (get_thickness voltage)) := by
  intro cands
  induction cands with
  | nil =>
    intro hits h idx rla rlo hres
    simp only [scanSegCandidates] at h
    injection h with h'
    subst h'
    simp
  | cons c rest ih =>
    intro hits h idx rla rlo hres
    simp only [scanSegCandidates] at h
    split at h
    · exact Except.noConfusion h
    · rename_i cla clo heq
      split at h
      · exact Except.noConfusion h
      · rename_i hits' hrec
        split at h
        · rename_i hd
          injection h with h'
          subst h'
          constructor
          · intro hmem
            rcases List.mem_cons.mp hmem with hhead | htail
            · injection hhead with h1 h2 h3
              subst h1
              subst h2
              subst h3
              exact ⟨List.mem_cons_self _ _, hd⟩
            · have hrest := (ih hits' hrec idx rla rlo hres).mp htail
              exact ⟨List.mem_cons_of_mem c hrest.1, hrest.2⟩
          · rintro ⟨hmem, hdist⟩
            rcases List.mem_cons.mp hmem with rfl | htail
            · rw [hres] at heq
              injection heq with hp
              injection hp with h1 h2
              subst h1
              subst h2
              exact List.mem_cons_self _ _
            · exact List.mem_cons_of_mem _
                ((ih hits' hrec idx rla rlo hres).mpr ⟨htail, hdist⟩)
        · rename_i hd
          injection h with h'
          subst h'
          constructor
          · intro hmem
            have hrest := (ih hits' hrec idx rla rlo hres).mp hmem
            exact ⟨List.mem_cons_of_mem c hrest.1, hrest.2⟩
          · rintro ⟨hmem, hdist⟩
            rcases List.mem_cons.mp hmem with rfl | htail
            · rw [hres] at heq
              injection heq with hp
              injection hp with h1 h2
              subst h1
              subst h2
              exact absurd hdist hd
            · exact (ih hits' hrec idx rla rlo hres).mpr ⟨htail, hdist⟩

/-- C1: in the line pass, for every segment and every candidate returned by
the segment's padded bounding-box query, the compared distance is the minimum
of the geodesic distances to the two endpoints, and a hit is emitted exactly
when that minimum is at most the voltage-derived threshold (inclusive). -/
theorem c1_line_pass_min_endpoint_distance :
    ∀ (dist : Dist) (rns : List ResNode) (entries : List IndexEntry)
      (voltage : String) (sp ep : Coord) (hits : List Hit),
      scanSegment dist rns entries voltage sp ep = .ok hits →
      ∀ (idx : Nat) (rla rlo : ℚ), getResCoords rns idx = .ok (rla, rlo) →
        ((⟨idx, rla, rlo⟩ : Hit) ∈ hits ↔
          idx ∈ intersection entries (segBBox sp ep) ∧
          min (dist sp (rla, rlo)) (dist ep (rla, rlo)) ≤
            lineThreshold (get_thickness voltage)) := by
  intro dist rns entries voltage sp ep hits h idx rla rlo hres
  exact scanSegCandidates_mem dist rns sp ep voltage
    (intersection entries (segBBox sp ep)) hits h idx rla rlo hres

/-- C1 witness: a degenerate segment at the origin, one residential node at
the same spot, zero distance function and empty voltage: the node is a hit,
and conversely. -/
theorem c1_line_pass_min_endpoint_distance_witness :
    (⟨0, 0, 0⟩ : Hit) ∈ [(⟨0, 0, 0⟩ : Hit)] ↔
      0 ∈ intersection [⟨0, 0, 0⟩] (segBBox (0, 0) (0, 0)) ∧
      min (0 : ℚ) 0 ≤ lineThreshold (get_thickness "") :=
  c1_line_pass_min_endpoint_distance (fun _ _ => 0) [⟨some 0, some 0⟩] [⟨0, 0, 0⟩]
    "" (0, 0) (0, 0) [⟨0, 0, 0⟩] (by with_unfolding_all rfl) 0 0 0
    (by with_unfolding_all rfl)

end DiplomApp
